import Mathlib

/-!
Shallow embedding of `src/platform/linux/mod.rs` of the glutin repository:
the Unix platform-dispatch layer for OpenGL context creation.

The dispatch layer selects a backend provider (X11 or Wayland for windowed
contexts, EGL or OsMesa for headless contexts) and forwards every operation
to the provider that produced the instance.  The provider modules
(`mod wayland;`, `mod x11;`, `api::egl`, `api::osmesa`) are not part of the
excerpt, so each provider context is embedded as a test double: a record of
the results its operations return.  Every provider call additionally logs an
`Event` (which provider, which operation, which numeric arguments) into a
trace, so that "no provider call is made" and "routes to the provider
matching the tag, never to the other" become statements about the trace.

Rust panics (`unwrap()` on a missing value, `unreachable!()`, `panic!()`)
are embedded as the `Outcome.panic` result, distinct from an `Outcome.err`
error return.
-/

namespace Glutin

/-- Opaque stand-in for `winit::Window`, passed through untouched. -/
structure Window where
  id : Nat
deriving DecidableEq

/-- Opaque stand-in for `winit::WindowBuilder`, passed through untouched. -/
structure WindowBuilder where
  id : Nat
deriving DecidableEq

/-- Stand-in for `winit::EventsLoop`: the only part of it this layer reads is
`is_wayland()` (via `winit::os::unix::EventsLoopExt`), recorded as a field. -/
structure EventsLoop where
  isWaylandSession : Bool
deriving DecidableEq

/-- The session-type query `events_loop.is_wayland()`. -/
def EventsLoop.is_wayland (e : EventsLoop) : Bool :=
  e.isWaylandSession

/-- Opaque stand-in for `PixelFormatRequirements`: parsed by providers only,
this layer passes it through. -/
structure PixelFormatRequirements where
  id : Nat
deriving DecidableEq

/-- Opaque stand-in for `PixelFormat`: produced by providers only. -/
structure PixelFormat where
  id : Nat
deriving DecidableEq

/-- The `Api` enum of glutin (`lib.rs`, outside the excerpt). -/
inductive Api where
  | OpenGl
  | OpenGlEs
  | WebGl
deriving DecidableEq

/-- The `ContextError` enum of glutin (`lib.rs`, outside the excerpt):
provider-origin operation errors, passed through unchanged by this layer. -/
inductive ContextError where
  | IoError (code : Nat)
  | OsError (msg : String)
  | ContextLost
deriving DecidableEq

/-- The `CreationError` enum of glutin (`lib.rs`, outside the excerpt).  Only
`PlatformSpecific` is produced by this layer itself; the other variants model
provider-origin creation errors, passed through unchanged. -/
inductive CreationError where
  | OsError (msg : String)
  | NotSupported
  | NoBackendAvailable
  | RobustnessNotSupported
  | OpenGlVersionNotSupported
  | NoAvailablePixelFormat
  | PlatformSpecific (msg : String)
deriving DecidableEq

/-- The `GlAttributes<S>` struct of glutin (`lib.rs`, outside the excerpt):
a `sharing : Option<S>` field plus further creation attributes (version,
profile, debug, robustness, vsync) that this layer only clones and passes
through, collapsed into one opaque `rest` field. -/
structure GlAttributes (S : Type) where
  sharing : Option S
  rest : Nat

/-- The `GlAttributes::clone` copy (`#[derive(Clone)]`): a pure copy. -/
def GlAttributes.clone {S : Type} (a : GlAttributes S) : GlAttributes S :=
  a

/-- The `GlAttributes::map_sharing` combinator of glutin (`lib.rs`): applies
`f` to the sharing target, if any, and keeps the remaining attributes.  The
closures this file passes to it contain `unreachable!()` arms, so `f` returns
an `Option` with `none` meaning the closure panicked; in that case the whole
call is a panic (`none`). -/
def GlAttributes.map_sharing {S T : Type} (a : GlAttributes S) (f : S → Option T) :
    Option (GlAttributes T) :=
  match a.sharing with
  | Option.none => some { sharing := none, rest := a.rest }
  | Option.some s => (f s).map fun t => { sharing := some t, rest := a.rest }

/-- The result of a Rust computation that can return normally, return an
error, or panic (`unwrap()` on a missing value, `unreachable!()`, `panic!()`). -/
inductive Outcome (ε α : Type) where
  | ok (a : α)
  | err (e : ε)
  | panic
deriving DecidableEq

/-- Which provider a logged call went to. -/
inductive Prov where
  | wayland
  | x11
  | osmesa
  | egl
deriving DecidableEq

/-- Which provider operation a logged call invoked. -/
inductive Op where
  | create
  | finishPbuffer
  | resize
  | makeCurrent
  | isCurrent
  | getProcAddress
  | swapBuffers
  | getApi
  | getPixelFormat
  | rawHandle
deriving DecidableEq

/-- One logged provider call: the provider, the operation, and its numeric
arguments (instance id first, then any forwarded values). -/
structure Event where
  prov : Prov
  op : Op
  args : List Nat
deriving DecidableEq

namespace glx

/-- Test double for a `glx::Context` (module `api::glx`, outside the
excerpt).  This layer only reads its raw handle (`GLXContext`, a native
pointer modelled as `Nat`). -/
structure Context where
  rawHandleVal : Nat

/-- The `glx::Context::raw_handle` accessor: returns the native `GLXContext`. -/
def Context.raw_handle (c : Context) : Nat :=
  c.rawHandleVal

end glx

namespace egl

/-- The `egl::NativeDisplay` enum (module `api::egl`, outside the excerpt):
which native display the EGL provider should bind to.  The headless path
always passes `Gbm(None)`. -/
inductive NativeDisplay where
  | X11 (d : Option Nat)
  | Gbm (d : Option Nat)
  | Wayland (d : Option Nat)
deriving DecidableEq

/-- Test double for an `egl::Context` (module `api::egl`, outside the
excerpt): records the result each capability operation returns, plus the
native `EGLContext` handle (modelled as `Nat`). -/
structure Context where
  id : Nat
  makeCurrentResult : Except ContextError Unit
  isCurrentVal : Bool
  procAddr : String → Nat
  swapBuffersResult : Except ContextError Unit
  apiVal : Api
  pixelFormatVal : PixelFormat
  rawHandleVal : Nat

/-- The `egl::Context::raw_handle` accessor: returns the native `EGLContext`. -/
def Context.raw_handle (c : Context) : Nat :=
  c.rawHandleVal

/-- Test double for an `egl::ContextPrototype` (module `api::egl`): the
intermediate value returned by `egl::Context::new` before a surface is
attached with `finish_pbuffer`. -/
structure ContextPrototype where
  id : Nat
deriving DecidableEq

end egl

namespace osmesa

/-- Test double for an `OsMesaContext` (module `api::osmesa`, outside the
excerpt): records the result each capability operation returns. -/
structure Context where
  id : Nat
  makeCurrentResult : Except ContextError Unit
  isCurrentVal : Bool
  procAddr : String → Nat
  swapBuffersResult : Except ContextError Unit
  apiVal : Api
  pixelFormatVal : PixelFormat
  rawHandleVal : Nat

end osmesa

/-- The `OsMesaContext` name as imported by `mod.rs` (`use api::osmesa::OsMesaContext`). -/
abbrev OsMesaContext := osmesa.Context

namespace wayland

/-- Test double for a `wayland::Context` (module `mod wayland;`, outside the
excerpt): records the result each capability operation returns, plus the
native `EGLContext` handle (Wayland contexts are EGL-backed). -/
structure Context where
  id : Nat
  makeCurrentResult : Except ContextError Unit
  isCurrentVal : Bool
  procAddr : String → Nat
  swapBuffersResult : Except ContextError Unit
  apiVal : Api
  pixelFormatVal : PixelFormat
  rawHandleVal : Nat

/-- Provider call `wayland::Context::resize(width, height)`: logged with the
forwarded width and height. -/
def Context.resize (c : Context) (width height : Nat) : Unit × List Event :=
  ((), [⟨Prov.wayland, Op.resize, [c.id, width, height]⟩])

/-- Provider call `wayland::Context::make_current`. -/
def Context.make_current (c : Context) : Except ContextError Unit × List Event :=
  (c.makeCurrentResult, [⟨Prov.wayland, Op.makeCurrent, [c.id]⟩])

/-- Provider call `wayland::Context::is_current`. -/
def Context.is_current (c : Context) : Bool × List Event :=
  (c.isCurrentVal, [⟨Prov.wayland, Op.isCurrent, [c.id]⟩])

/-- Provider call `wayland::Context::get_proc_address(addr)`. -/
def Context.get_proc_address (c : Context) (addr : String) : Nat × List Event :=
  (c.procAddr addr, [⟨Prov.wayland, Op.getProcAddress, [c.id]⟩])

/-- Provider call `wayland::Context::swap_buffers`. -/
def Context.swap_buffers (c : Context) : Except ContextError Unit × List Event :=
  (c.swapBuffersResult, [⟨Prov.wayland, Op.swapBuffers, [c.id]⟩])

/-- Provider call `wayland::Context::get_api`. -/
def Context.get_api (c : Context) : Api × List Event :=
  (c.apiVal, [⟨Prov.wayland, Op.getApi, [c.id]⟩])

/-- Provider call `wayland::Context::get_pixel_format`. -/
def Context.get_pixel_format (c : Context) : PixelFormat × List Event :=
  (c.pixelFormatVal, [⟨Prov.wayland, Op.getPixelFormat, [c.id]⟩])

/-- Provider call `wayland::Context::raw_handle`: returns the native
`EGLContext`. -/
def Context.raw_handle (c : Context) : Nat × List Event :=
  (c.rawHandleVal, [⟨Prov.wayland, Op.rawHandle, [c.id]⟩])

end wayland

namespace x11

/-- The `x11::GlContext` enum (module `mod x11;`, outside the excerpt but
matched on by `mod.rs`): the nested backend of an X11 provider context,
either GLX-backed, EGL-backed, or `None`. -/
inductive GlContext where
  | Glx (c : glx.Context)
  | Egl (c : egl.Context)
  | None

/-- Test double for an `x11::Context` (module `mod x11;`, outside the
excerpt): records the result each capability operation returns; its raw
handle is a nested `GlContext`. -/
structure Context where
  id : Nat
  makeCurrentResult : Except ContextError Unit
  isCurrentVal : Bool
  procAddr : String → Nat
  swapBuffersResult : Except ContextError Unit
  apiVal : Api
  pixelFormatVal : PixelFormat
  rawHandleVal : GlContext

/-- Provider call `x11::Context::make_current`. -/
def Context.make_current (c : Context) : Except ContextError Unit × List Event :=
  (c.makeCurrentResult, [⟨Prov.x11, Op.makeCurrent, [c.id]⟩])

/-- Provider call `x11::Context::is_current`. -/
def Context.is_current (c : Context) : Bool × List Event :=
  (c.isCurrentVal, [⟨Prov.x11, Op.isCurrent, [c.id]⟩])

/-- Provider call `x11::Context::get_proc_address(addr)`. -/
def Context.get_proc_address (c : Context) (addr : String) : Nat × List Event :=
  (c.procAddr addr, [⟨Prov.x11, Op.getProcAddress, [c.id]⟩])

/-- Provider call `x11::Context::swap_buffers`. -/
def Context.swap_buffers (c : Context) : Except ContextError Unit × List Event :=
  (c.swapBuffersResult, [⟨Prov.x11, Op.swapBuffers, [c.id]⟩])

/-- Provider call `x11::Context::get_api`. -/
def Context.get_api (c : Context) : Api × List Event :=
  (c.apiVal, [⟨Prov.x11, Op.getApi, [c.id]⟩])

/-- Provider call `x11::Context::get_pixel_format`. -/
def Context.get_pixel_format (c : Context) : PixelFormat × List Event :=
  (c.pixelFormatVal, [⟨Prov.x11, Op.getPixelFormat, [c.id]⟩])

/-- Provider call `x11::Context::raw_handle`: returns the nested `GlContext`. -/
def Context.raw_handle (c : Context) : GlContext × List Event :=
  (c.rawHandleVal, [⟨Prov.x11, Op.rawHandle, [c.id]⟩])

/-- The `x11::GlxOrEgl` struct (module `mod x11;`, outside the excerpt):
which of the GLX and EGL libraries could be loaded, each represented by an
opaque library handle. -/
structure GlxOrEgl where
  glx : Option Nat
  egl : Option Nat
deriving DecidableEq

end x11

/-- The environment and provider behaviour this layer delegates to, as one
record of oracles: the two windowed provider constructors, the library
loader result, and the two EGL headless construction steps.  Calls into
these are what the dispatch layer logs as events. -/
structure Oracle where
  waylandNew : WindowBuilder → EventsLoop → PixelFormatRequirements →
      GlAttributes wayland.Context → Except CreationError (Window × wayland.Context)
  x11New : WindowBuilder → EventsLoop → PixelFormatRequirements →
      GlAttributes x11.Context → Except CreationError (Window × x11.Context)
  glxOrEgl : x11.GlxOrEgl
  eglNew : Nat → PixelFormatRequirements → GlAttributes egl.Context →
      egl.NativeDisplay → Except CreationError egl.ContextPrototype
  finishPbuffer : egl.ContextPrototype → Nat × Nat → Except CreationError egl.Context

/-- Modelled from the spec: `x11::GlxOrEgl::new()` probes the environment for
the GLX and EGL libraries (module `mod x11;`, outside the excerpt); the
probe's outcome is supplied by the oracle. -/
def x11.GlxOrEgl.new (o : Oracle) : x11.GlxOrEgl :=
  o.glxOrEgl

/-- The `RawHandle` enum of `mod.rs`: context handles available on Unix-like
platforms, `Glx(GLXContext)` or `Egl(EGLContext)` with the native pointers
modelled as `Nat`. -/
inductive RawHandle where
  | Glx (c : Nat)
  | Egl (c : Nat)
deriving DecidableEq

/-- The `Context` enum of `mod.rs`: the windowed uniform handle, either
X11-backed or Wayland-backed. -/
inductive Context where
  | X (c : x11.Context)
  | Wayland (c : wayland.Context)

/-- The closure `mod.rs` passes to `map_sharing` on the Wayland path:
`&Context::X(_) => unreachable!(), &Context::Wayland(ref ctxt) => ctxt`.
`none` models the `unreachable!()` panic. -/
def waylandShareOf : Context → Option wayland.Context
  | Context.X _ => none
  | Context.Wayland c => some c

/-- The closure `mod.rs` passes to `map_sharing` on the X11 path:
`&Context::Wayland(_) => unreachable!(), &Context::X(ref ctxt) => ctxt`.
`none` models the `unreachable!()` panic. -/
def x11ShareOf : Context → Option x11.Context
  | Context.Wayland _ => none
  | Context.X c => some c

/-- `Context::new` of `mod.rs`: queries the session type, rejects
cross-backend sharing with a `PlatformSpecific` error before any provider
call, re-projects the sharing target to the chosen provider's context type,
delegates construction to that provider, and wraps the success in the
matching variant.  Returns the outcome together with the trace of provider
calls made. -/
def Context.new (o : Oracle) (window_builder : WindowBuilder)
    (events_loop : EventsLoop) (pf_reqs : PixelFormatRequirements)
    (gl_attr : GlAttributes Context) :
    Outcome CreationError (Window × Context) × List Event :=
  if events_loop.is_wayland then
    match gl_attr.sharing with
    | some (Context.X _) =>
        (Outcome.err (CreationError.PlatformSpecific
          "Cannot share a wayland context with an X11 context"), [])
    | _ =>
        match gl_attr.clone.map_sharing waylandShareOf with
        | none => (Outcome.panic, [])
        | some gl_attr2 =>
            match o.waylandNew window_builder events_loop pf_reqs gl_attr2 with
            | Except.error e => (Outcome.err e, [⟨Prov.wayland, Op.create, []⟩])
            | Except.ok (window, ctxt) =>
                (Outcome.ok (window, Context.Wayland ctxt),
                 [⟨Prov.wayland, Op.create, []⟩])
  else
    match gl_attr.sharing with
    | some (Context.Wayland _) =>
        (Outcome.err (CreationError.PlatformSpecific
          "Cannot share a X11 context with an wayland context"), [])
    | _ =>
        match gl_attr.clone.map_sharing x11ShareOf with
        | none => (Outcome.panic, [])
        | some gl_attr2 =>
            match o.x11New window_builder events_loop pf_reqs gl_attr2 with
            | Except.error e => (Outcome.err e, [⟨Prov.x11, Op.create, []⟩])
            | Except.ok (window, ctxt) =>
                (Outcome.ok (window, Context.X ctxt),
                 [⟨Prov.x11, Op.create, []⟩])

/-- `Context::resize` of `mod.rs`: a no-op for the X11 variant, forwards to
the Wayland provider's resize for the Wayland variant. -/
def Context.resize (c : Context) (width height : Nat) : Unit × List Event :=
  match c with
  | Context.X _ => ((), [])
  | Context.Wayland ctxt => ctxt.resize width height

/-- `Context::make_current` of `mod.rs`: forwards to the owning provider. -/
def Context.make_current : Context → Except ContextError Unit × List Event
  | Context.X ctxt => ctxt.make_current
  | Context.Wayland ctxt => ctxt.make_current

/-- `Context::is_current` of `mod.rs`: forwards to the owning provider. -/
def Context.is_current : Context → Bool × List Event
  | Context.X ctxt => ctxt.is_current
  | Context.Wayland ctxt => ctxt.is_current

/-- `Context::get_proc_address` of `mod.rs`: forwards to the owning provider. -/
def Context.get_proc_address (c : Context) (addr : String) : Nat × List Event :=
  match c with
  | Context.X ctxt => ctxt.get_proc_address addr
  | Context.Wayland ctxt => ctxt.get_proc_address addr

/-- `Context::swap_buffers` of `mod.rs`: forwards to the owning provider. -/
def Context.swap_buffers : Context → Except ContextError Unit × List Event
  | Context.X ctxt => ctxt.swap_buffers
  | Context.Wayland ctxt => ctxt.swap_buffers

/-- `Context::get_api` of `mod.rs`: forwards to the owning provider. -/
def Context.get_api : Context → Api × List Event
  | Context.X ctxt => ctxt.get_api
  | Context.Wayland ctxt => ctxt.get_api

/-- `Context::get_pixel_format` of `mod.rs`: forwards to the owning provider. -/
def Context.get_pixel_format : Context → PixelFormat × List Event
  | Context.X ctxt => ctxt.get_pixel_format
  | Context.Wayland ctxt => ctxt.get_pixel_format

/-- `Context::raw_handle` of `mod.rs`: for the X11 variant, unwraps the
nested `GlContext` tag into `RawHandle::Glx` or `RawHandle::Egl`, and
panics on `GlContext::None`; for the Wayland variant, wraps the provider's
handle as `RawHandle::Egl`. -/
def Context.raw_handle (c : Context) : Outcome Empty RawHandle × List Event :=
  match c with
  | Context.X ctxt =>
      match ctxt.raw_handle with
      | (glctx, tr) =>
          match glctx with
          | x11.GlContext.Glx c2 => (Outcome.ok (RawHandle.Glx c2.raw_handle), tr)
          | x11.GlContext.Egl c2 => (Outcome.ok (RawHandle.Egl c2.raw_handle), tr)
          | x11.GlContext.None => (Outcome.panic, tr)
  | Context.Wayland ctxt =>
      match ctxt.raw_handle with
      | (h, tr) => (Outcome.ok (RawHandle.Egl h), tr)

/-- The `PlatformSpecificHeadlessBuilderAttributes` unit struct of `mod.rs`:
it has no fields. -/
structure PlatformSpecificHeadlessBuilderAttributes where
deriving DecidableEq

/-- The `HeadlessContext` enum of `mod.rs`: the headless uniform handle,
either OsMesa-backed or EGL-pbuffer-backed. -/
inductive HeadlessContext where
  | OsMesa (c : OsMesaContext)
  | Egl (c : egl.Context)

/-- Numeric encoding of the sharing argument handed to `egl::Context::new`,
for logging in the create event: `0` for no sharing, `id + 1` for sharing
with the context of that id. -/
def encodeSharing : Option egl.Context → Nat
  | none => 0
  | some c => c.id + 1

/-- The closure `HeadlessContext::new` passes to `map_sharing`:
`|_| unreachable!()`.  `none` models the `unreachable!()` panic. -/
def headlessShareOf : HeadlessContext → Option egl.Context :=
  fun _ => none

/-- `HeadlessContext::new` of `mod.rs`: clones the attributes, clears the
sharing field, re-projects with an `unreachable!()` closure, loads the
GLX/EGL libraries and `unwrap()`s the EGL one, creates an EGL context
against a `Gbm(None)` native display and `unwrap()`s it, finishes it into a
pbuffer of the requested dimensions and `unwrap()`s that, and wraps the
result as `HeadlessContext::Egl`.  Every `unwrap()` on a missing/failed
value is a panic.  The `PlatformSpecificHeadlessBuilderAttributes` argument
is bound to `_` in the source and ignored. -/
def HeadlessContext.new (o : Oracle) (dimensions : Nat × Nat)
    (pf_reqs : PixelFormatRequirements) (opengl : GlAttributes HeadlessContext)
    (_pa : PlatformSpecificHeadlessBuilderAttributes) :
    Outcome CreationError HeadlessContext × List Event :=
  let opengl1 : GlAttributes HeadlessContext := { opengl.clone with sharing := none }
  match opengl1.map_sharing headlessShareOf with
  | none => (Outcome.panic, [])
  | some opengl2 =>
      match (x11.GlxOrEgl.new o).egl with
      | none => (Outcome.panic, [])
      | some eglLib =>
          match o.eglNew eglLib pf_reqs opengl2 (egl.NativeDisplay.Gbm none) with
          | Except.error _ =>
              (Outcome.panic,
               [⟨Prov.egl, Op.create, [encodeSharing opengl2.sharing]⟩])
          | Except.ok proto =>
              match o.finishPbuffer proto dimensions with
              | Except.error _ =>
                  (Outcome.panic,
                   [⟨Prov.egl, Op.create, [encodeSharing opengl2.sharing]⟩,
                    ⟨Prov.egl, Op.finishPbuffer, [dimensions.1, dimensions.2]⟩])
              | Except.ok ctxt =>
                  (Outcome.ok (HeadlessContext.Egl ctxt),
                   [⟨Prov.egl, Op.create, [encodeSharing opengl2.sharing]⟩,
                    ⟨Prov.egl, Op.finishPbuffer, [dimensions.1, dimensions.2]⟩])

/-- Provider call `OsMesaContext::make_current`. -/
def osmesa.Context.make_current (c : OsMesaContext) :
    Except ContextError Unit × List Event :=
  (c.makeCurrentResult, [⟨Prov.osmesa, Op.makeCurrent, [c.id]⟩])

/-- Provider call `OsMesaContext::is_current`. -/
def osmesa.Context.is_current (c : OsMesaContext) : Bool × List Event :=
  (c.isCurrentVal, [⟨Prov.osmesa, Op.isCurrent, [c.id]⟩])

/-- Provider call `OsMesaContext::get_proc_address(addr)`. -/
def osmesa.Context.get_proc_address (c : OsMesaContext) (addr : String) :
    Nat × List Event :=
  (c.procAddr addr, [⟨Prov.osmesa, Op.getProcAddress, [c.id]⟩])

/-- Provider call `OsMesaContext::swap_buffers`. -/
def osmesa.Context.swap_buffers (c : OsMesaContext) :
    Except ContextError Unit × List Event :=
  (c.swapBuffersResult, [⟨Prov.osmesa, Op.swapBuffers, [c.id]⟩])

/-- Provider call `OsMesaContext::get_api`. -/
def osmesa.Context.get_api (c : OsMesaContext) : Api × List Event :=
  (c.apiVal, [⟨Prov.osmesa, Op.getApi, [c.id]⟩])

/-- Provider call `OsMesaContext::get_pixel_format`. -/
def osmesa.Context.get_pixel_format (c : OsMesaContext) : PixelFormat × List Event :=
  (c.pixelFormatVal, [⟨Prov.osmesa, Op.getPixelFormat, [c.id]⟩])

/-- Provider call `OsMesaContext::raw_handle`. -/
def osmesa.Context.raw_handle (c : OsMesaContext) : Nat × List Event :=
  (c.rawHandleVal, [⟨Prov.osmesa, Op.rawHandle, [c.id]⟩])

/-- Provider call `egl::Context::make_current` (headless path). -/
def egl.Context.make_current (c : egl.Context) :
    Except ContextError Unit × List Event :=
  (c.makeCurrentResult, [⟨Prov.egl, Op.makeCurrent, [c.id]⟩])

/-- Provider call `egl::Context::is_current` (headless path). -/
def egl.Context.is_current (c : egl.Context) : Bool × List Event :=
  (c.isCurrentVal, [⟨Prov.egl, Op.isCurrent, [c.id]⟩])

/-- Provider call `egl::Context::get_proc_address(addr)` (headless path). -/
def egl.Context.get_proc_address (c : egl.Context) (addr : String) :
    Nat × List Event :=
  (c.procAddr addr, [⟨Prov.egl, Op.getProcAddress, [c.id]⟩])

/-- Provider call `egl::Context::swap_buffers` (headless path). -/
def egl.Context.swap_buffers (c : egl.Context) :
    Except ContextError Unit × List Event :=
  (c.swapBuffersResult, [⟨Prov.egl, Op.swapBuffers, [c.id]⟩])

/-- Provider call `egl::Context::get_api` (headless path). -/
def egl.Context.get_api (c : egl.Context) : Api × List Event :=
  (c.apiVal, [⟨Prov.egl, Op.getApi, [c.id]⟩])

/-- Provider call `egl::Context::get_pixel_format` (headless path). -/
def egl.Context.get_pixel_format (c : egl.Context) : PixelFormat × List Event :=
  (c.pixelFormatVal, [⟨Prov.egl, Op.getPixelFormat, [c.id]⟩])

/-- Provider call `egl::Context::raw_handle` logged as an event (headless
path, where `mod.rs` casts it to `*mut c_void`). -/
def egl.Context.raw_handle_logged (c : egl.Context) : Nat × List Event :=
  (c.rawHandleVal, [⟨Prov.egl, Op.rawHandle, [c.id]⟩])

/-- `HeadlessContext::make_current` of `mod.rs`: forwards to the owning
provider. -/
def HeadlessContext.make_current : HeadlessContext → Except ContextError Unit × List Event
  | HeadlessContext.OsMesa mesa => mesa.make_current
  | HeadlessContext.Egl eglc => eglc.make_current

/-- `HeadlessContext::is_current` of `mod.rs`: forwards to the owning
provider. -/
def HeadlessContext.is_current : HeadlessContext → Bool × List Event
  | HeadlessContext.OsMesa mesa => mesa.is_current
  | HeadlessContext.Egl eglc => eglc.is_current

/-- `HeadlessContext::get_proc_address` of `mod.rs`: forwards to the owning
provider. -/
def HeadlessContext.get_proc_address (c : HeadlessContext) (addr : String) :
    Nat × List Event :=
  match c with
  | HeadlessContext.OsMesa mesa => mesa.get_proc_address addr
  | HeadlessContext.Egl eglc => eglc.get_proc_address addr

/-- `HeadlessContext::swap_buffers` of `mod.rs`: forwards to the owning
provider. -/
def HeadlessContext.swap_buffers : HeadlessContext → Except ContextError Unit × List Event
  | HeadlessContext.OsMesa mesa => mesa.swap_buffers
  | HeadlessContext.Egl eglc => eglc.swap_buffers

/-- `HeadlessContext::get_api` of `mod.rs`: forwards to the owning provider. -/
def HeadlessContext.get_api : HeadlessContext → Api × List Event
  | HeadlessContext.OsMesa mesa => mesa.get_api
  | HeadlessContext.Egl eglc => eglc.get_api

/-- `HeadlessContext::get_pixel_format` of `mod.rs`: forwards to the owning
provider. -/
def HeadlessContext.get_pixel_format : HeadlessContext → PixelFormat × List Event
  | HeadlessContext.OsMesa mesa => mesa.get_pixel_format
  | HeadlessContext.Egl eglc => eglc.get_pixel_format

/-- `HeadlessContext::raw_handle` of `mod.rs`: forwards to the owning
provider and casts the handle to `*mut c_void` (the cast is the identity on
the numeric model). -/
def HeadlessContext.raw_handle : HeadlessContext → Nat × List Event
  | HeadlessContext.OsMesa mesa => mesa.raw_handle
  | HeadlessContext.Egl eglc => eglc.raw_handle_logged

/-- Tag observer on the windowed handle: `true` for `Context::Wayland`,
`false` for `Context::X`. -/
def Context.tagIsWayland : Context → Bool
  | Context.X _ => false
  | Context.Wayland _ => true

/-- Provider observer on the windowed handle: which provider the tag names. -/
def Context.provOf : Context → Prov
  | Context.X _ => Prov.x11
  | Context.Wayland _ => Prov.wayland

/-- Provider observer on the headless handle: which provider the tag names. -/
def HeadlessContext.provOf : HeadlessContext → Prov
  | HeadlessContext.OsMesa _ => Prov.osmesa
  | HeadlessContext.Egl _ => Prov.egl

/-! Concrete test doubles, used by the witness theorems. -/

/-- Concrete Wayland provider double. -/
def sampleWayland : wayland.Context :=
  { id := 1, makeCurrentResult := Except.ok (), isCurrentVal := true,
    procAddr := fun _ => 0, swapBuffersResult := Except.ok (),
    apiVal := Api.OpenGl, pixelFormatVal := ⟨0⟩, rawHandleVal := 11 }

/-- Concrete X11 provider double whose nested backend is GLX. -/
def sampleX11Glx : x11.Context :=
  { id := 2, makeCurrentResult := Except.ok (), isCurrentVal := false,
    procAddr := fun _ => 0, swapBuffersResult := Except.ok (),
    apiVal := Api.OpenGl, pixelFormatVal := ⟨0⟩,
    rawHandleVal := x11.GlContext.Glx ⟨7⟩ }

/-- Concrete X11 provider double whose nested backend is `GlContext::None`. -/
def sampleX11BackendNone : x11.Context :=
  { id := 5, makeCurrentResult := Except.ok (), isCurrentVal := false,
    procAddr := fun _ => 0, swapBuffersResult := Except.ok (),
    apiVal := Api.OpenGl, pixelFormatVal := ⟨0⟩,
    rawHandleVal := x11.GlContext.None }

/-- Concrete EGL provider double. -/
def sampleEgl : egl.Context :=
  { id := 3, makeCurrentResult := Except.ok (), isCurrentVal := true,
    procAddr := fun _ => 0, swapBuffersResult := Except.ok (),
    apiVal := Api.OpenGlEs, pixelFormatVal := ⟨0⟩, rawHandleVal := 13 }

/-- Concrete oracle where every provider call succeeds and both libraries
load. -/
def sampleOracleOk : Oracle :=
  { waylandNew := fun _ _ _ _ => Except.ok (⟨1⟩, sampleWayland),
    x11New := fun _ _ _ _ => Except.ok (⟨2⟩, sampleX11Glx),
    glxOrEgl := { glx := some 1, egl := some 2 },
    eglNew := fun _ _ _ _ => Except.ok ⟨4⟩,
    finishPbuffer := fun _ _ => Except.ok sampleEgl }

/-- Concrete oracle where both windowed provider constructors fail and no
library loads. -/
def sampleOracleErr : Oracle :=
  { waylandNew := fun _ _ _ _ => Except.error CreationError.NotSupported,
    x11New := fun _ _ _ _ => Except.error CreationError.NoBackendAvailable,
    glxOrEgl := { glx := none, egl := none },
    eglNew := fun _ _ _ _ => Except.error CreationError.NotSupported,
    finishPbuffer := fun _ _ => Except.error CreationError.NotSupported }

/-- Concrete window builder. -/
def sampleWb : WindowBuilder := ⟨0⟩

/-- Concrete pixel-format requirements. -/
def samplePf : PixelFormatRequirements := ⟨0⟩

/-- Concrete Wayland-session event source. -/
def elWayland : EventsLoop := ⟨true⟩

/-- Concrete X11-session event source. -/
def elX11 : EventsLoop := ⟨false⟩

/-- Concrete windowed attributes with no sharing target. -/
def sampleAttrs : GlAttributes Context := { sharing := none, rest := 0 }

/-- Concrete headless attributes with no sharing target. -/
def sampleHeadlessAttrs : GlAttributes HeadlessContext := { sharing := none, rest := 0 }

/-! Claim theorems. -/

/-- C1: a windowed-creation request in a Wayland session whose sharing
target is X11-backed, or in an X11 session whose sharing target is
Wayland-backed, returns `CreationError::PlatformSpecific` and makes no
provider call: the trace is empty, so no native resource is allocated and
no partial construction occurs. -/
theorem contextNew_rejects_cross_backend_sharing
    (o : Oracle) (wb : WindowBuilder) (el : EventsLoop)
    (pf : PixelFormatRequirements) (ga : GlAttributes Context) :
    (el.is_wayland = true → ∀ x, ga.sharing = some (Context.X x) →
      Context.new o wb el pf ga =
        (Outcome.err (CreationError.PlatformSpecific
          "Cannot share a wayland context with an X11 context"), []))
    ∧ (el.is_wayland = false → ∀ w, ga.sharing = some (Context.Wayland w) →
      Context.new o wb el pf ga =
        (Outcome.err (CreationError.PlatformSpecific
          "Cannot share a X11 context with an wayland context"), [])) := by
  constructor
  · intro hw x hsh
    simp [Context.new, hw, hsh]
  · intro hw w hsh
    simp [Context.new, hw, hsh]

/-- Witness for C1: at concrete inputs, a Wayland session sharing with an
X11-backed context is rejected with an empty trace, and symmetrically for an
X11 session sharing with a Wayland-backed context. -/
theorem contextNew_rejects_cross_backend_sharing_w :
    Context.new sampleOracleOk sampleWb elWayland samplePf
        { sharing := some (Context.X sampleX11Glx), rest := 0 } =
      (Outcome.err (CreationError.PlatformSpecific
        "Cannot share a wayland context with an X11 context"), [])
    ∧ Context.new sampleOracleOk sampleWb elX11 samplePf
        { sharing := some (Context.Wayland sampleWayland), rest := 0 } =
      (Outcome.err (CreationError.PlatformSpecific
        "Cannot share a X11 context with an wayland context"), []) :=
  ⟨(contextNew_rejects_cross_backend_sharing sampleOracleOk sampleWb elWayland
      samplePf _).1 rfl sampleX11Glx rfl,
   (contextNew_rejects_cross_backend_sharing sampleOracleOk sampleWb elX11
      samplePf _).2 rfl sampleWayland rfl⟩

/-- C2: every successful windowed creation returns a `Context` whose tag
matches the detected session type: `Context::Wayland` when the event source
reports a Wayland session, `Context::X` otherwise. -/
theorem contextNew_tag_matches_session
    (o : Oracle) (wb : WindowBuilder) (el : EventsLoop)
    (pf : PixelFormatRequirements) (ga : GlAttributes Context)
    (w : Window) (ctxt : Context)
    (h : (Context.new o wb el pf ga).1 = Outcome.ok (w, ctxt)) :
    ctxt.tagIsWayland = el.is_wayland := by
  unfold Context.new at h
  split at h <;> rename_i hw
  · rw [hw]
    split at h
    · simp at h
    · split at h
      · simp at h
      · split at h
        · simp at h
        · simp only [Prod.fst] at h
          cases h
          rfl
  · rw [Bool.not_eq_true] at hw
    rw [hw]
    split at h
    · simp at h
    · split at h
      · simp at h
      · split at h
        · simp at h
        · simp only [Prod.fst] at h
          cases h
          rfl

/-- Witness for C2: a concrete successful Wayland-session creation returns a
`Context` whose tag is Wayland. -/
theorem contextNew_tag_matches_session_w :
    (Context.Wayland sampleWayland).tagIsWayland = elWayland.is_wayland :=
  contextNew_tag_matches_session sampleOracleOk sampleWb elWayland samplePf
    sampleAttrs ⟨1⟩ (Context.Wayland sampleWayland) rfl

/-- C3: whatever sharing value the caller supplies, every EGL create call
made by `HeadlessContext::new` receives an attribute set whose sharing is
empty: the logged sharing argument of the create event is
`encodeSharing none`. -/
theorem headlessNew_clears_sharing
    (o : Oracle) (d : Nat × Nat) (pf : PixelFormatRequirements)
    (a : GlAttributes HeadlessContext)
    (pa : PlatformSpecificHeadlessBuilderAttributes) (e : Event)
    (he : e ∈ (HeadlessContext.new o d pf a pa).2)
    (hp : e.prov = Prov.egl) (hop : e.op = Op.create) :
    e.args = [encodeSharing none] := by
  unfold HeadlessContext.new at he
  simp only [GlAttributes.clone, GlAttributes.map_sharing] at he
  split at he
  · simp at he
  · split at he
    · simp at he
      subst he
      rfl
    · split at he <;>
      · simp at he
        rcases he with rfl | rfl
        · rfl
        · simp at hop

/-- Witness for C3: at a concrete successful run, the EGL create event is in
the trace, names the EGL provider and the create operation, and its logged
sharing argument is the encoding of empty sharing. -/
theorem headlessNew_clears_sharing_w :
    (Event.mk Prov.egl Op.create [0]).args = [encodeSharing none] :=
  headlessNew_clears_sharing sampleOracleOk (800, 600) samplePf
    { sharing := some (HeadlessContext.Egl sampleEgl), rest := 0 } ⟨⟩
    ⟨Prov.egl, Op.create, [0]⟩ (by decide) rfl rfl

/-- C4 counterexample: with the EGL library unavailable, `HeadlessContext::new`
panics — the `unwrap()` aborts the program — so the failure is not returned
to the caller as an error value, refuting the claim's "not an abort". -/
theorem headlessNew_aborts_counterexample :
    (HeadlessContext.new sampleOracleErr (800, 600) samplePf
        sampleHeadlessAttrs ⟨⟩).1 = Outcome.panic := rfl

/-- C4 amended: every call to `HeadlessContext::new` either returns
`Ok(HeadlessContext::Egl(...))` — the provider finished into a pixel buffer
of exactly the requested dimensions, as the logged finish-pbuffer call
shows — or panics (aborts via `unwrap()`) when the EGL backend is
unavailable or an EGL provider call fails; it never returns an error value
and never falls back to the software provider. -/
theorem headlessNew_ok_egl_or_panic
    (o : Oracle) (d : Nat × Nat) (pf : PixelFormatRequirements)
    (a : GlAttributes HeadlessContext)
    (pa : PlatformSpecificHeadlessBuilderAttributes) :
    ((∃ c, (HeadlessContext.new o d pf a pa).1
        = Outcome.ok (HeadlessContext.Egl c))
      ∨ (HeadlessContext.new o d pf a pa).1 = Outcome.panic)
    ∧ (∀ e ∈ (HeadlessContext.new o d pf a pa).2,
        e.op = Op.finishPbuffer → e.args = [d.1, d.2]) := by
  unfold HeadlessContext.new
  simp only [GlAttributes.clone, GlAttributes.map_sharing]
  split
  · simp
  · split
    · simp
    · split
      · constructor
        · right
          rfl
        · intro e he hop
          simp at he
          rcases he with rfl | rfl
          · simp at hop
          · rfl
      · constructor
        · left
          exact ⟨_, rfl⟩
        · intro e he hop
          simp at he
          rcases he with rfl | rfl
          · simp at hop
          · rfl

/-- Witness for C4 (amended): a concrete successful run returns
`Ok(HeadlessContext::Egl(...))`, and the logged finish-pbuffer call carries
the requested dimensions. -/
theorem headlessNew_ok_egl_or_panic_w :
    (HeadlessContext.new sampleOracleOk (800, 600) samplePf
        sampleHeadlessAttrs ⟨⟩).1 = Outcome.ok (HeadlessContext.Egl sampleEgl)
    ∧ (Event.mk Prov.egl Op.finishPbuffer [800, 600]).args = [800, 600] :=
  ⟨rfl,
   (headlessNew_ok_egl_or_panic sampleOracleOk (800, 600) samplePf
      sampleHeadlessAttrs ⟨⟩).2
     ⟨Prov.egl, Op.finishPbuffer, [800, 600]⟩ (by decide) rfl⟩

/-- C5: every forwarding operation (make-current, is-current,
get-proc-address, swap-buffers, get-api, get-pixel-format, raw-handle) on
`Context` and on `HeadlessContext` dispatches to the provider fixed by the
variant tag — the trace is exactly the one call to that provider, never to
the other — and returns the provider's result unchanged. -/
theorem forwarding_matches_tag (x : x11.Context) (w : wayland.Context)
    (m : OsMesaContext) (e : egl.Context) (addr : String) :
    (Context.X x).make_current
        = (x.makeCurrentResult, [⟨Prov.x11, Op.makeCurrent, [x.id]⟩])
    ∧ (Context.Wayland w).make_current
        = (w.makeCurrentResult, [⟨Prov.wayland, Op.makeCurrent, [w.id]⟩])
    ∧ (Context.X x).is_current
        = (x.isCurrentVal, [⟨Prov.x11, Op.isCurrent, [x.id]⟩])
    ∧ (Context.Wayland w).is_current
        = (w.isCurrentVal, [⟨Prov.wayland, Op.isCurrent, [w.id]⟩])
    ∧ (Context.X x).get_proc_address addr
        = (x.procAddr addr, [⟨Prov.x11, Op.getProcAddress, [x.id]⟩])
    ∧ (Context.Wayland w).get_proc_address addr
        = (w.procAddr addr, [⟨Prov.wayland, Op.getProcAddress, [w.id]⟩])
    ∧ (Context.X x).swap_buffers
        = (x.swapBuffersResult, [⟨Prov.x11, Op.swapBuffers, [x.id]⟩])
    ∧ (Context.Wayland w).swap_buffers
        = (w.swapBuffersResult, [⟨Prov.wayland, Op.swapBuffers, [w.id]⟩])
    ∧ (Context.X x).get_api = (x.apiVal, [⟨Prov.x11, Op.getApi, [x.id]⟩])
    ∧ (Context.Wayland w).get_api
        = (w.apiVal, [⟨Prov.wayland, Op.getApi, [w.id]⟩])
    ∧ (Context.X x).get_pixel_format
        = (x.pixelFormatVal, [⟨Prov.x11, Op.getPixelFormat, [x.id]⟩])
    ∧ (Context.Wayland w).get_pixel_format
        = (w.pixelFormatVal, [⟨Prov.wayland, Op.getPixelFormat, [w.id]⟩])
    ∧ ((Context.X x).raw_handle).2 = [⟨Prov.x11, Op.rawHandle, [x.id]⟩]
    ∧ (Context.Wayland w).raw_handle
        = (Outcome.ok (RawHandle.Egl w.rawHandleVal),
           [⟨Prov.wayland, Op.rawHandle, [w.id]⟩])
    ∧ (HeadlessContext.OsMesa m).make_current
        = (m.makeCurrentResult, [⟨Prov.osmesa, Op.makeCurrent, [m.id]⟩])
    ∧ (HeadlessContext.Egl e).make_current
        = (e.makeCurrentResult, [⟨Prov.egl, Op.makeCurrent, [e.id]⟩])
    ∧ (HeadlessContext.OsMesa m).is_current
        = (m.isCurrentVal, [⟨Prov.osmesa, Op.isCurrent, [m.id]⟩])
    ∧ (HeadlessContext.Egl e).is_current
        = (e.isCurrentVal, [⟨Prov.egl, Op.isCurrent, [e.id]⟩])
    ∧ (HeadlessContext.OsMesa m).get_proc_address addr
        = (m.procAddr addr, [⟨Prov.osmesa, Op.getProcAddress, [m.id]⟩])
    ∧ (HeadlessContext.Egl e).get_proc_address addr
        = (e.procAddr addr, [⟨Prov.egl, Op.getProcAddress, [e.id]⟩])
    ∧ (HeadlessContext.OsMesa m).swap_buffers
        = (m.swapBuffersResult, [⟨Prov.osmesa, Op.swapBuffers, [m.id]⟩])
    ∧ (HeadlessContext.Egl e).swap_buffers
        = (e.swapBuffersResult, [⟨Prov.egl, Op.swapBuffers, [e.id]⟩])
    ∧ (HeadlessContext.OsMesa m).get_api
        = (m.apiVal, [⟨Prov.osmesa, Op.getApi, [m.id]⟩])
    ∧ (HeadlessContext.Egl e).get_api
        = (e.apiVal, [⟨Prov.egl, Op.getApi, [e.id]⟩])
    ∧ (HeadlessContext.OsMesa m).get_pixel_format
        = (m.pixelFormatVal, [⟨Prov.osmesa, Op.getPixelFormat, [m.id]⟩])
    ∧ (HeadlessContext.Egl e).get_pixel_format
        = (e.pixelFormatVal, [⟨Prov.egl, Op.getPixelFormat, [e.id]⟩])
    ∧ (HeadlessContext.OsMesa m).raw_handle
        = (m.rawHandleVal, [⟨Prov.osmesa, Op.rawHandle, [m.id]⟩])
    ∧ (HeadlessContext.Egl e).raw_handle
        = (e.rawHandleVal, [⟨Prov.egl, Op.rawHandle, [e.id]⟩]) := by
  refine ⟨rfl, rfl, rfl, rfl, rfl, rfl, rfl, rfl, rfl, rfl, rfl, rfl, ?_,
    rfl, rfl, rfl, rfl, rfl, rfl, rfl, rfl, rfl, rfl, rfl, rfl, rfl, rfl, rfl⟩
  simp only [Context.raw_handle, x11.Context.raw_handle]
  split <;> rfl

/-- C6: `Context::resize` on an X11-backed Context performs no provider call
(the trace is empty), changes nothing, and returns unit without error. -/
theorem resize_x11_noop (x : x11.Context) (width height : Nat) :
    (Context.X x).resize width height = ((), []) := rfl

/-- C7: `Context::resize` on a Wayland-backed Context calls the Wayland
provider's resize exactly once, forwarding the width and height unchanged. -/
theorem resize_wayland_forwards (w : wayland.Context) (width height : Nat) :
    (Context.Wayland w).resize width height
      = ((), [⟨Prov.wayland, Op.resize, [w.id, width, height]⟩]) := rfl

/-- C8: `Context::raw_handle` on an X11-backed Context unwraps the
provider's nested backend tag: a GLX-backed provider yields `RawHandle::Glx`
of the provider's handle, an EGL-backed one yields `RawHandle::Egl` of the
provider's handle, and `GlContext::None` is a fatal invariant violation — a
panic, not a recoverable error. -/
theorem rawHandle_x11_unwraps_nested_tag (x : x11.Context) :
    (∀ g, x.rawHandleVal = x11.GlContext.Glx g →
      ((Context.X x).raw_handle).1 = Outcome.ok (RawHandle.Glx g.raw_handle))
    ∧ (∀ e, x.rawHandleVal = x11.GlContext.Egl e →
      ((Context.X x).raw_handle).1 = Outcome.ok (RawHandle.Egl e.raw_handle))
    ∧ (x.rawHandleVal = x11.GlContext.None →
      ((Context.X x).raw_handle).1 = Outcome.panic) := by
  refine ⟨fun g hg => ?_, fun e he => ?_, fun hn => ?_⟩ <;>
    simp [Context.raw_handle, x11.Context.raw_handle, *]

/-- Witness for C8: a GLX-backed X11 provider double yields
`RawHandle::Glx` of its handle, and a `GlContext::None` one panics. -/
theorem rawHandle_x11_unwraps_nested_tag_w :
    ((Context.X sampleX11Glx).raw_handle).1 = Outcome.ok (RawHandle.Glx 7)
    ∧ ((Context.X sampleX11BackendNone).raw_handle).1 = Outcome.panic :=
  ⟨(rawHandle_x11_unwraps_nested_tag sampleX11Glx).1 ⟨7⟩ rfl,
   (rawHandle_x11_unwraps_nested_tag sampleX11BackendNone).2.2 rfl⟩

/-- C9: when the sharing check passes and the delegated provider's creation
routine returns an error, `Context::new` returns exactly that error value,
unchanged; only successful results are wrapped into the Context variant. -/
theorem contextNew_propagates_provider_error
    (o : Oracle) (wb : WindowBuilder) (el : EventsLoop)
    (pf : PixelFormatRequirements) (ga : GlAttributes Context)
    (err : CreationError) :
    (el.is_wayland = true →
      ∀ ga2, ga.clone.map_sharing waylandShareOf = some ga2 →
      (∀ x, ga.sharing ≠ some (Context.X x)) →
      o.waylandNew wb el pf ga2 = Except.error err →
      (Context.new o wb el pf ga).1 = Outcome.err err)
    ∧ (el.is_wayland = false →
      ∀ ga2, ga.clone.map_sharing x11ShareOf = some ga2 →
      (∀ w, ga.sharing ≠ some (Context.Wayland w)) →
      o.x11New wb el pf ga2 = Except.error err →
      (Context.new o wb el pf ga).1 = Outcome.err err) := by
  constructor
  · intro hw ga2 hmap hns herr
    rcases hsh : ga.sharing with _ | c
    · simp [Context.new, hw, hsh, hmap, herr]
    · cases c with
      | X x => exact absurd hsh (hns x)
      | Wayland wc => simp [Context.new, hw, hsh, hmap, herr]
  · intro hw ga2 hmap hns herr
    rcases hsh : ga.sharing with _ | c
    · simp [Context.new, hw, hsh, hmap, herr]
    · cases c with
      | X x => simp [Context.new, hw, hsh, hmap, herr]
      | Wayland wc => exact absurd hsh (hns wc)

/-- Witness for C9: a concrete Wayland-session creation with a failing
provider returns the provider's `NotSupported` error unchanged. -/
theorem contextNew_propagates_provider_error_w :
    (Context.new sampleOracleErr sampleWb elWayland samplePf sampleAttrs).1
      = Outcome.err CreationError.NotSupported :=
  (contextNew_propagates_provider_error sampleOracleErr sampleWb elWayland
      samplePf sampleAttrs CreationError.NotSupported).1 rfl
    { sharing := none, rest := 0 } rfl (fun _ h => Option.noConfusion h) rfl

/-- C10: `HeadlessContext::new` binds its platform-attributes argument to
`_` and ignores it entirely: two calls that agree on the oracle, dimensions,
pixel-format requirements and gl attributes but take arbitrary
platform-attribute values give identical results, outcome and trace alike. -/
theorem headlessNew_ignores_platform_attrs
    (o : Oracle) (d : Nat × Nat) (pf : PixelFormatRequirements)
    (a : GlAttributes HeadlessContext)
    (pa1 pa2 : PlatformSpecificHeadlessBuilderAttributes) :
    HeadlessContext.new o d pf a pa1 = HeadlessContext.new o d pf a pa2 := rfl

end Glutin
